import Mathlib

/-!
Verification development for the web-scraper agent of the Agent-cy
repository.  The definitions below are a shallow embedding of the
scraper core found in src/unnamed/part_000 (the ScraperAgent class) and
src/functions/src/agents/web-scraper/web-scraper.js.  External effects
(HTTP requests, the headless browser, the document store, the artifact
store and the LLM backend) are passed in explicitly as environment
records whose fields are Except-valued outcomes; everything the
repository itself computes is translated directly from the source.
JavaScript strings are modelled by Lean strings over their characters;
timestamps (new Date().toISOString(), server timestamps) are omitted as
pure wall-clock effects that no claim mentions.
-/

namespace AgentCy

/-! ## JavaScript string primitives used by the scraper -/

/-- JavaScript word characters, the `\w` class: ASCII letters, digits and
underscore.  Used by the `\b` word-boundary assertions of the keyword
regular expressions built at src/unnamed/part_000 lines 307 and 495. -/
def isWordChar (c : Char) : Bool :=
  c.isAlpha || c.isDigit || c = '_'

/-- Case folding for the regular-expression flag "i" (ASCII range, which
covers every keyword the agent is given). -/
def foldCase (c : Char) : Char := c.toLower

/-- Whether the pattern is a case-insensitive literal prefix of the text. -/
def leadsCI : List Char → List Char → Bool
  | [], _ => true
  | _ :: _, [] => false
  | k :: ks, c :: cs => (foldCase k = foldCase c) && leadsCI ks cs

/-- The `\b` assertion between two (possibly absent) neighbouring
characters: it holds when exactly one side is a word character. -/
def boundaryAt (a b : Option Char) : Bool :=
  (match a with | some c => isWordChar c | none => false)
    != (match b with | some c => isWordChar c | none => false)

/-- Whether the pattern `\b<kw>\b` has a match beginning at the head of
`s`, where `prev` is the character just before `s` (none at the start of
the text): the keyword must be a case-insensitive literal prefix of `s`
with word boundaries on both sides. -/
def wordHit (kw : List Char) (prev : Option Char) (s : List Char) : Bool :=
  (kw ≠ [] : Bool) && leadsCI kw s
    && boundaryAt prev s.head?
    && boundaryAt (s.get? (kw.length - 1)) (s.get? kw.length)

/-- The global ("g" flag) scan of `text.match(re)` for the pattern
`\b<kw>\b` with flags "gi": at each position, if the keyword matches
case-insensitively with word boundaries on both sides, one match is
recorded and the scan resumes after it (`skip` counts the characters of
the current match that are still to be passed over); otherwise the scan
advances one character.  `prev` is the character immediately before the
current position. -/
def jsWordCountAux (kw : List Char) (skip : Nat) (prev : Option Char) : List Char → Nat
  | [] => 0
  | c :: rest =>
    match skip with
    | n + 1 => jsWordCountAux kw n (some c) rest
    | 0 =>
      if wordHit kw prev (c :: rest) then
        1 + jsWordCountAux kw (kw.length - 1) (some c) rest
      else
        jsWordCountAux kw 0 (some c) rest

/-- Number of matches of the interpolated pattern `\b<kw>\b` (flags
"gi") in `text`, i.e. the value `(text.match(regex) || []).length`
computed by the keyword loops at src/unnamed/part_000 lines 305-310 and
492-498, for keywords on which the pattern is a literal whole-word
search (see `plainKeyword`). -/
def jsWordCount (text kw : String) : Nat :=
  jsWordCountAux kw.data 0 none text.data

/-- Whether the pattern `\b<kw>\b` matches anywhere in the text starting
from a position whose preceding character is `prev`: the claim-level
notion of the keyword being present in the text as a whole word. -/
def hasWordMatch (kw : List Char) (prev : Option Char) (s : List Char) : Bool :=
  match s with
  | [] => false
  | c :: rest => wordHit kw prev (c :: rest) || hasWordMatch kw (some c) rest

/-- Keywords over word characters, hyphens and spaces (and nonempty).
For such a keyword the interpolated source `"\b" + keyword + "\b"` is a
valid regular expression that searches for the keyword literally between
word boundaries.  Any other keyword changes the meaning of the pattern
or makes it invalid: the keyword "(" for instance yields the source
`\b(\b`, an unterminated group, so `new RegExp` throws a SyntaxError
that propagates out of the scoring loop. -/
def plainKeyword (kw : String) : Bool :=
  kw ≠ "" && kw.data.all (fun c => isWordChar c || c = '-' || c = ' ')

/-- Property assignment `obj[kw] = n` on a JavaScript object modelled as
an association list in key-insertion order: an existing key keeps its
position and gets the new value, a new key is appended. -/
def insertKM (m : List (String × Nat)) (kw : String) (n : Nat) : List (String × Nat) :=
  if m.any (fun p => p.1 = kw) then
    m.map (fun p => if p.1 = kw then (kw, n) else p)
  else
    m ++ [(kw, n)]

/-- The keyword-match object built by the loops at src/unnamed/part_000
lines 305-310 and 492-498:

    for (const keyword of keywords) \x7b
      const regex = new RegExp("\b" + keyword + "\b", "gi");
      const matches = textContent.match(regex) || [];
      keywordMatches[keyword] = matches.length;
    \x7d

An absent keyword gives `match` = null, turned into `[]` by `|| []`, so
its count is 0 rather than an error.  A keyword whose interpolated
pattern is not a literal whole-word search (see `plainKeyword`) is
modelled as the error case; in particular for the keyword "(" the
constructor `new RegExp("\b(\b", "gi")` throws a SyntaxError
(unterminated group) that escapes the loop. -/
def buildKeywordMatches (text : String) (keywords : List String) :
    Except String (List (String × Nat)) :=
  keywords.foldlM
    (fun m kw =>
      if plainKeyword kw then
        Except.ok (insertKM m kw (jsWordCount text kw))
      else
        Except.error "SyntaxError: Invalid regular expression")
    []

/-- `Object.values(keywordMatches).reduce((a, b) => a + b, 0)`. -/
def totalMatches (m : List (String × Nat)) : Nat :=
  (m.map Prod.snd).sum

/-- Property read `obj[kw]` on the association-list model of the
keyword-match object. -/
def kmLookup (m : List (String × Nat)) (kw : String) : Option Nat :=
  match m with
  | [] => none
  | (k, n) :: rest => if k = kw then some n else kmLookup rest kw

/-- One iteration of the scoring loop on a plain keyword. -/
def scoreStep (text : String) (m : List (String × Nat)) (kw : String) :
    List (String × Nat) :=
  insertKM m kw (jsWordCount text kw)

/-- The keyword-match object the loop produces when every keyword is
plain (the successful value of `buildKeywordMatches`). -/
def scoreMap (text : String) (keywords : List String) : List (String × Nat) :=
  keywords.foldl (scoreStep text) []

/-- JavaScript `\s` for the character range the scraper meets: space,
tab, newline, carriage return, form feed and vertical tab. -/
def isJsSpace (c : Char) : Bool :=
  c = ' ' || c = '\t' || c = '\n' || c = '\r' || c = '\x0C' || c = '\x0B'

/-- `replace(/\s+/g, " ")`: every maximal run of whitespace becomes one
space.  `inRun` records whether the previous character was whitespace
(so only the first character of a run emits the space). -/
def collapseWsAux (inRun : Bool) : List Char → List Char
  | [] => []
  | c :: rest =>
    if isJsSpace c then
      if inRun then collapseWsAux true rest else ' ' :: collapseWsAux true rest
    else
      c :: collapseWsAux false rest

/-- JavaScript `String.prototype.trim`: leading and trailing whitespace
removed. -/
def jsTrim (s : String) : String :=
  String.mk (((s.data.dropWhile isJsSpace).reverse.dropWhile isJsSpace).reverse)

/-- JavaScript `String.prototype.toLowerCase` (ASCII range). -/
def jsToLower (s : String) : String :=
  String.mk (s.data.map foldCase)

/-- `text.trim().replace(/\s+/g, " ")` as applied at
src/unnamed/part_000 line 470. -/
def collapseWs (s : String) : String :=
  String.mk (collapseWsAux false (jsTrim s).data)

/-- Whether the pattern is an exact literal prefix of the text. -/
def leadsEq : List Char → List Char → Bool
  | [], _ => true
  | _ :: _, [] => false
  | k :: ks, c :: cs => (k = c) && leadsEq ks cs

/-- Substring search over the characters of a string. -/
def containsAt (sub : List Char) : List Char → Bool
  | [] => sub.isEmpty
  | c :: rest => leadsEq sub (c :: rest) || containsAt sub rest

/-- JavaScript `String.prototype.includes`. -/
def jsIncludes (s sub : String) : Bool :=
  containsAt sub.data s.data

/-- Characters that `encodeURIComponent` leaves unescaped. -/
def isUnreservedURI (c : Char) : Bool :=
  c.isAlpha || c.isDigit
    || c ∈ (['-', '_', '.', '!', '~', '*', '\'', '(', ')'] : List Char)

/-- UTF-8 bytes of a code point, as Nat values below 256. -/
def utf8Bytes (n : Nat) : List Nat :=
  if n < 128 then [n]
  else if n < 2048 then [192 + n / 64, 128 + n % 64]
  else if n < 65536 then [224 + n / 4096, 128 + (n / 64) % 64, 128 + n % 64]
  else [240 + n / 262144, 128 + (n / 4096) % 64, 128 + (n / 64) % 64, 128 + n % 64]

/-- Upper-case hexadecimal digit. -/
def hexDigit (n : Nat) : Char :=
  if n < 10 then Char.ofNat (48 + n) else Char.ofNat (55 + n)

/-- JavaScript `encodeURIComponent`: unreserved characters kept, every
other character percent-encoded byte by byte. -/
def encodeURIComponent (s : String) : String :=
  String.mk
    ((s.data.map (fun c =>
      if isUnreservedURI c then [c]
      else ((utf8Bytes c.toNat).map
        (fun b => ['%', hexDigit (b / 16), hexDigit (b % 16)])).flatten)).flatten)

/-- First alternative of `alts` that matches case-insensitively at the
head of `s`, in the order the alternation lists them. -/
def firstAltAt (alts : List String) (s : List Char) : Option String :=
  alts.find? (fun a => leadsCI a.data s)

/-- `query.replace(/who is|what is|when did|where is/i, "")`: scan for
the leftmost position where some alternative matches (alternatives tried
in order at each position), delete that one occurrence and keep the rest
of the string unchanged. -/
def replaceFirstCI (alts : List String) : List Char → List Char
  | [] => []
  | c :: rest =>
    match firstAltAt alts (c :: rest) with
    | some a => (c :: rest).drop a.data.length
    | none => c :: replaceFirstCI alts rest

/-! ## Data model -/

/-- A heading of the scraped page: tag level (1-6) and its text. -/
structure Heading where
  level : Nat
  content : String
deriving DecidableEq

/-- An anchor element of the scraped page: href attribute and anchor
text. -/
structure Anchor where
  href : String
  text : String
deriving DecidableEq

/-- A block-level container element of the parsed document (a div or
section for the fallback scan, or a matched semantic container), after
the noise elements (script, style, nav, footer, iframe, noscript) have
been removed: its text content, and the headings and anchors found
inside it, in document order. -/
structure Container where
  text : String
  headings : List Heading
  anchors : List Anchor
deriving DecidableEq

/-- The cheerio-parsed document, as the extraction code queries it:
title text, the two description meta attributes (none when the attribute
is absent), the combined selection of semantic main-content containers
(main, article, #content, .content, .post, .article; none when the
selection is empty), the div and section containers in document order,
and the body. -/
structure Doc where
  title : String
  metaDescription : Option String
  ogDescription : Option String
  semanticMain : Option Container
  containers : List Container
  body : Container
deriving DecidableEq

/-- A per-URL result object.  JavaScript object fields that are present
only on some construction paths are Options; `none` means the field is
absent from the object.  Wall-clock timestamps are not modelled. -/
structure PageResult where
  url : String
  success : Bool
  title : Option String := none
  description : Option String := none
  mainContent : Option String := none
  keywordMatches : Option (List (String × Nat)) := none
  totalKeywordMatches : Option Nat := none
  textLength : Option Nat := none
  headings : Option (List Heading) := none
  links : Option (List Anchor) := none
  screenshotUrl : Option String := none
  method : Option String := none
  error : Option String := none
deriving DecidableEq

/-- Constructor-time configuration of the ScraperAgent
(src/unnamed/part_000 lines 26-34).  `retryDelay` only shapes the
backoff sleeps, which no result value depends on, and is not modelled. -/
structure ScraperConfig where
  maxRetries : Nat := 3
  maxContentLength : Nat := 12000
  usePuppeteer : Bool := true
  captureScreenshots : Bool := true
  enableAIExtraction : Bool := true
  searchEnabled : Bool := true

/-- The summarization backend as the agent sees it: whether
OPENAI_API_KEY is set, the outcome of an openai chat completion for a
given prompt, and the outcome of the inherited BaseAgent generateText
call (an external LLM capability whose code is outside the scraper; the
specification's external-interface section says it may fail). -/
structure AIEnv where
  openaiAvailable : Bool
  openaiComplete : String → Except String String
  generateText : String → Except String String

/-- Outcomes of the lightweight HTTP fetch: the k-th axios.get attempt
either fails (network error or non-2xx) or succeeds, in which case the
parsed document of the response body is given (cheerio.load is total on
any string). -/
structure FetchEnv where
  attempts : Nat → Except String Doc

/-- Observables of a page loaded in the headless browser: page.title(),
the meta description (the $eval has a .catch that turns a missing
element into the empty string, so it cannot fail), and
document.body.innerText. -/
structure RenderedPage where
  title : String
  description : String
  textContent : String

/-- Outcomes of the browser effects of scrapePage: opening the page
(browser.newPage, outside the try block), navigation together with the
in-page evaluations, the screenshot capture, and the storage upload of
the screenshot returning its URL. -/
structure RenderEnv where
  newPage : Except String Unit
  goto : Except String RenderedPage
  screenshot : Except String Unit
  uploadScreenshot : Except String String

/-! ## Retry policy (src/unnamed/part_000 lines 402-432) -/

/-- The while loop

    while (retries < maxRetries) \x7b
      try \x7b response = await axios.get(url, ...); break; \x7d
      catch (error) \x7b
        retries++;
        if (retries >= maxRetries) throw error;
        await sleep(retryDelay * 2 ** retries);
      \x7d
    \x7d

starting at a given retry count.  When the loop is never entered
(maxRetries = 0), `response` stays undefined and the subsequent
`response.data` access throws a TypeError. -/
def retryLoop (att : Nat → Except String Doc) (maxRetries : Nat) :
    Nat → Nat → Except String Doc
  | 0, _ => Except.error "TypeError: response is undefined"
  | remaining + 1, retries =>
    match att retries with
    | Except.ok v => Except.ok v
    | Except.error e =>
      if retries + 1 ≥ maxRetries then Except.error e
      else retryLoop att maxRetries remaining (retries + 1)

/-- The lightweight fetch with its built-in retry mechanism, from the
first attempt.  The loop condition retries < maxRetries is carried as
the count maxRetries - retries of loop entries still possible
(`remaining` in `retryLoop`), which starts at maxRetries. -/
def fetchWithRetry (att : Nat → Except String Doc) (maxRetries : Nat) :
    Except String Doc :=
  retryLoop att maxRetries maxRetries 0

/-! ## Fetch strategy selection (src/unnamed/part_000 lines 251-255) -/

/-- The two fetch strategies. -/
inductive Strategy where
  | lightweight
  | rendered
deriving DecidableEq

/-- The branch condition of scrapeUrl:

    if (!this.usePuppeteer || url.includes("wikipedia.org")
        || url.includes("britannica.com"))
      return this.scrapeWithoutBrowser(url, keywords);

a pure function of the URL and the configuration, evaluated on each
scrapeUrl call.  Note that the test is substring containment over the
whole URL string, not a host comparison. -/
def chooseStrategy (cfg : ScraperConfig) (url : String) : Strategy :=
  if !cfg.usePuppeteer || jsIncludes url "wikipedia.org"
      || jsIncludes url "britannica.com" then
    Strategy.lightweight
  else
    Strategy.rendered

/-! ## Content extraction
(src/unnamed/part_000 lines 440-490, and the identical algorithm in
src/functions/src/agents/web-scraper/web-scraper.js extractContent) -/

/-- The trimmed text length of a container,
`$(el).text().trim().length`. -/
def trimLen (c : Container) : Nat :=
  (jsTrim c.text).data.length

/-- One step of the largest-text-container scan: the candidate replaces
the best so far exactly when its trimmed text length is strictly
greater. -/
def selBest (p : Container × Nat) (c : Container) : Container × Nat :=
  if trimLen c > p.2 then (c, trimLen c) else p

/-- The fallback scan over all div and section containers
(src/unnamed/part_000 lines 453-467): maxTextLength starts at 0 and
maxTextElement at the body, and each container with a strictly larger
trimmed text length than the best so far becomes the new best. -/
def largestTextContainer (body : Container) (cs : List Container) : Container :=
  (cs.foldl selBest (body, 0)).1

/-- The selected main element: the combined semantic selection when it
is nonempty, otherwise the largest-text fallback. -/
def mainElementOf (doc : Doc) : Container :=
  match doc.semanticMain with
  | some m => m
  | none => largestTextContainer doc.body doc.containers

/-- Heading collection inside the main element: each h1-h6 contributes
its level and trimmed text, and headings whose trimmed text is empty are
skipped. -/
def extractHeadings (c : Container) : List Heading :=
  c.headings.filterMap (fun h =>
    let t := jsTrim h.content
    if t ≠ "" then some { level := h.level, content := t } else none)

/-- Link collection inside the main element: anchors with an href, a
nonempty trimmed text, and an href that does not start with "#". -/
def extractAnchors (c : Container) : List Anchor :=
  c.anchors.filterMap (fun a =>
    let t := jsTrim a.text
    if a.href ≠ "" && t ≠ "" && !a.href.startsWith "#" then
      some { href := a.href, text := t }
    else none)

/-- The text of the selected main element after trim and whitespace
collapse, src/unnamed/part_000 line 470. -/
def lightTextContent (doc : Doc) : String :=
  collapseWs (mainElementOf doc).text

/-- The description fallback chain
`meta[name=description] || meta[property=og:description] || ""`;
JavaScript || also skips a present but empty attribute value. -/
def descriptionOf (doc : Doc) : String :=
  match doc.metaDescription with
  | some s => if s ≠ "" then s else
      (match doc.ogDescription with
       | some t => if t ≠ "" then t else ""
       | none => "")
  | none =>
      match doc.ogDescription with
      | some t => if t ≠ "" then t else ""
      | none => ""

/-! ## Summarization fallback (src/unnamed/part_000 lines 538-599) -/

/-- Truncation before any summarizer call:
`fullText.length > max ? fullText.substring(0, max) + "..." : fullText`. -/
def truncateForAI (maxLen : Nat) (fullText : String) : String :=
  if fullText.data.length > maxLen then
    String.mk (fullText.data.take maxLen) ++ "..."
  else
    fullText

/-- The user prompt of the primary openai extraction call. -/
def openaiUserPrompt (truncated : String) (keywords : List String) : String :=
  "Extract the most important and relevant information from this web page text.\n"
    ++ "Focus especially on information related to these keywords: "
    ++ String.intercalate ", " keywords ++ ".\n\nPage text:\n" ++ truncated
    ++ "\n\nExtract only the main meaningful content. Ignore navigation menus, ads, "
    ++ "footers, headers, and other boilerplate elements.\n"
    ++ "Format the extracted content in a clean, readable way. Include all relevant "
    ++ "facts and details.\n"
    ++ "Structure your response with headings and bullet points where appropriate."

/-- The prompt of the generateText fallback call. -/
def fallbackPrompt (truncated : String) (keywords : List String) : String :=
  "Extract the most important and relevant information from this web page text.\n"
    ++ "Focus especially on information related to these keywords: "
    ++ String.intercalate ", " keywords ++ ".\n\nPage text:\n" ++ truncated
    ++ "\n\nExtract only the main meaningful content. Ignore navigation menus, ads, "
    ++ "footers, headers, and other boilerplate elements.\n"
    ++ "Format the extracted content in a clean, readable way."

/-- extractMainContent: truncate the text, then try the openai call when
an API key is present (its failure is caught and falls through), then
the generateText fallback.  The fallback call itself is not wrapped in
any try/catch, so its failure propagates to the caller; no further
degraded tier exists in the code. -/
def extractMainContent (ai : AIEnv) (cfg : ScraperConfig)
    (fullText : String) (keywords : List String) : Except String String :=
  let truncated := truncateForAI cfg.maxContentLength fullText
  if ai.openaiAvailable then
    match ai.openaiComplete (openaiUserPrompt truncated keywords) with
    | Except.ok content => Except.ok content
    | Except.error _ => ai.generateText (fallbackPrompt truncated keywords)
  else
    ai.generateText (fallbackPrompt truncated keywords)

/-! ## The per-URL scrapers -/

/-- A failed per-URL result of the lightweight path: the catch block at
src/unnamed/part_000 lines 520-529 returns url, success: false, the
error message and method: "lightweight". -/
def lightFailure (url e : String) : PageResult :=
  { url := url, success := false, error := some e, method := some "lightweight" }

/-- scrapeWithoutBrowser (src/unnamed/part_000 lines 397-530): retried
axios fetch, cheerio extraction, keyword scoring, optional AI main
content, all inside one try whose catch produces a failed PageResult
instead of propagating. -/
def scrapeWithoutBrowser (cfg : ScraperConfig) (ai : AIEnv) (fetch : FetchEnv)
    (url : String) (keywords : List String) : PageResult :=
  match fetchWithRetry fetch.attempts cfg.maxRetries with
  | Except.error e => lightFailure url e
  | Except.ok doc =>
    let title := jsTrim doc.title
    let description := descriptionOf doc
    let mainElement := mainElementOf doc
    let textContent := collapseWs mainElement.text
    let headings := extractHeadings mainElement
    let links := extractAnchors mainElement
    match buildKeywordMatches textContent keywords with
    | Except.error e => lightFailure url e
    | Except.ok km =>
      match (if cfg.enableAIExtraction then
              extractMainContent ai cfg textContent keywords
             else Except.ok textContent) with
      | Except.error e => lightFailure url e
      | Except.ok mainContent =>
        { url := url
          success := true
          title := some title
          description := some description
          mainContent := some mainContent
          keywordMatches := some km
          totalKeywordMatches := some (totalMatches km)
          textLength := some textContent.data.length
          headings := some headings
          links := some (links.take 20)
          method := some "lightweight" }

/-- A failed per-URL result of the Puppeteer path: the catch block at
src/unnamed/part_000 lines 332-339 returns url, success: false and the
error message (no method field). -/
def renderedFailure (url e : String) : PageResult :=
  { url := url, success := false, error := some e }

/-- scrapePage (src/unnamed/part_000 lines 279-343): browser.newPage is
evaluated outside the try block, so its failure propagates as a thrown
error (the Except.error of the outer type); every failure inside the try
(navigation, screenshot capture, AI extraction, keyword regex, storage
upload) is caught and returned as a failed PageResult. -/
def scrapePage (cfg : ScraperConfig) (ai : AIEnv) (env : RenderEnv)
    (url : String) (keywords : List String) : Except String PageResult :=
  match env.newPage with
  | Except.error e => Except.error e
  | Except.ok _ =>
    Except.ok
      (match env.goto with
       | Except.error e => renderedFailure url e
       | Except.ok page =>
         match env.screenshot with
         | Except.error e => renderedFailure url e
         | Except.ok _ =>
           match extractMainContent ai cfg page.textContent keywords with
           | Except.error e => renderedFailure url e
           | Except.ok mainContent =>
             match buildKeywordMatches page.textContent keywords with
             | Except.error e => renderedFailure url e
             | Except.ok km =>
               match env.uploadScreenshot with
               | Except.error e => renderedFailure url e
               | Except.ok ssUrl =>
                 { url := url
                   success := true
                   title := some page.title
                   description := some page.description
                   mainContent := some mainContent
                   keywordMatches := some km
                   totalKeywordMatches := some (totalMatches km)
                   textLength := some page.textContent.data.length
                   screenshotUrl := some ssUrl })

/-- scrapeUrl (src/unnamed/part_000 lines 251-270): strategy selection
then dispatch.  The lightweight path never throws (scrapeWithoutBrowser
catches everything); on the rendered path the puppeteer.launch and
browser.close effects are folded into RenderEnv.newPage, the one
uncaught effect of that path. -/
def scrapeUrl (cfg : ScraperConfig) (ai : AIEnv) (fetch : FetchEnv)
    (render : RenderEnv) (url : String) (keywords : List String) :
    Except String PageResult :=
  match chooseStrategy cfg url with
  | Strategy.lightweight => Except.ok (scrapeWithoutBrowser cfg ai fetch url keywords)
  | Strategy.rendered => scrapePage cfg ai render url keywords

/-! ## Job controller (src/unnamed/part_000 lines 156-235) -/

/-- The fields of a scraping job document that runScrapingJob reads. -/
structure JobData where
  urls : List String
  keywords : List String
  taskId : Option String
deriving DecidableEq

/-- The observable final state of the scrapingJobs document after
runScrapingJob: the status written last, and the error, resultCount and
successCount fields when the corresponding update writes them. -/
structure JobRecord where
  status : String
  error : Option String := none
  resultCount : Option Nat := none
  successCount : Option Nat := none
deriving DecidableEq

/-- The outcome of a runScrapingJob execution: the final job record and
the result list stored in the scrapedData collection (none when that
write never happened). -/
structure JobOutcome where
  record : JobRecord
  savedResults : Option (List PageResult) := none
deriving DecidableEq

/-- The collaborator outcomes of one runScrapingJob execution: the
status:running update, the job document read, the per-URL scrapeUrl
invocation for the i-th URL (Except.error when scrapeUrl throws), the
scrapedData document write, the raw-JSON storage upload, and the final
status:completed update. -/
structure JobEnv where
  updateRunning : Except String Unit
  getJob : Except String JobData
  scrape : Nat → String → Except String PageResult
  saveScrapedData : Except String Unit
  uploadRaw : Except String Unit
  updateCompleted : Except String Unit

/-- The entry the per-URL catch pushes for a thrown scrape
(src/unnamed/part_000 lines 178-184): url, success: false and the error
message. -/
def catchEntry (url e : String) : PageResult :=
  { url := url, success := false, error := some e }

/-- The per-URL loop (src/unnamed/part_000 lines 172-185): for each URL
in order, push the scraped PageResult, or the catch entry when the
scrape throws.  `i` is the index of the first URL of `urls` in the whole
list. -/
def collectResults (scrape : Nat → String → Except String PageResult) :
    Nat → List String → List PageResult
  | _, [] => []
  | i, url :: rest =>
    (match scrape i url with
     | Except.ok r => r
     | Except.error e => catchEntry url e) :: collectResults scrape (i + 1) rest

/-- Line 188 of src/unnamed/part_000 is `await browser.close();`, but no
variable named browser is declared anywhere in runScrapingJob or in the
enclosing module scope, so evaluating the expression always throws a
ReferenceError. -/
def browserCloseStep : Except String Unit :=
  Except.error "browser is not defined"

/-- runScrapingJob: mark the job running, read it, run the per-URL loop
(whose failures are all absorbed into failed entries), close the
browser, persist the result list, upload the raw JSON, and mark the job
completed with resultCount and successCount; any failure of these steps
reaches the outer catch, which marks the job failed with the error
message.  Because `browserCloseStep` always throws, the steps after it
are unreachable in every execution. -/
def runScrapingJob (env : JobEnv) : JobOutcome :=
  match env.updateRunning with
  | Except.error e => { record := { status := "failed", error := some e } }
  | Except.ok _ =>
    match env.getJob with
    | Except.error e => { record := { status := "failed", error := some e } }
    | Except.ok job =>
      let scrapedData := collectResults env.scrape 0 job.urls
      match browserCloseStep with
      | Except.error e => { record := { status := "failed", error := some e } }
      | Except.ok _ =>
        match env.saveScrapedData with
        | Except.error e => { record := { status := "failed", error := some e } }
        | Except.ok _ =>
          match env.uploadRaw with
          | Except.error e =>
            { record := { status := "failed", error := some e }
              savedResults := some scrapedData }
          | Except.ok _ =>
            match env.updateCompleted with
            | Except.error e =>
              { record := { status := "failed", error := some e }
                savedResults := some scrapedData }
            | Except.ok _ =>
              { record :=
                  { status := "completed"
                    resultCount := some scrapedData.length
                    successCount := some (scrapedData.filter (fun d => d.success)).length }
                savedResults := some scrapedData }

/-! ## URL discovery (src/unnamed/part_000 lines 351-388) -/

/-- The logActivity call at the top of searchForUrls; the whole function
body sits in a try whose catch returns the empty list. -/
structure SearchEnv where
  logActivity : Except String Unit

/-- The four alternatives of the interrogative pattern
/who is|what is|when did|where is/i, in alternation order. -/
def interrogatives : List String :=
  ["who is", "what is", "when did", "where is"]

/-- searchForUrls: topic rules on the lowercased query (weather, news,
interrogative-to-Wikipedia), then the two fixed search URLs as fallback;
both lists are cut to maxResults by slice(0, maxResults); any internal
error is caught and yields the empty list. -/
def searchForUrls (env : SearchEnv) (query : String) (maxResults : Nat) :
    List String :=
  match env.logActivity with
  | Except.error _ => []
  | Except.ok _ =>
    let queryLower := jsToLower query
    let predefinedUrls :=
      if jsIncludes queryLower "weather" then
        ["https://weather.com/"]
      else if jsIncludes queryLower "news" then
        ["https://news.google.com/"]
      else if containsAt "who is".data queryLower.data
          || containsAt "what is".data queryLower.data
          || containsAt "when did".data queryLower.data
          || containsAt "where is".data queryLower.data then
        let topic := jsTrim (String.mk (replaceFirstCI interrogatives query.data))
        if topic ≠ "" then
          ["https://en.wikipedia.org/wiki/" ++ encodeURIComponent topic]
        else []
      else []
    if predefinedUrls.length > 0 then
      predefinedUrls.take maxResults
    else
      (["https://en.wikipedia.org/wiki/Special:Search?search="
          ++ encodeURIComponent query,
        "https://www.britannica.com/search?query="
          ++ encodeURIComponent query]).take maxResults

/-! ## The specification-side strategy rule, for comparison with the
code-side `chooseStrategy` -/

/-- The part of the character list after the first occurrence of `sep`
(none when `sep` does not occur). -/
def afterFirstSep (sep : List Char) : List Char → Option (List Char)
  | [] => none
  | c :: rest =>
    if leadsEq sep (c :: rest) then some ((c :: rest).drop sep.length)
    else afterFirstSep sep rest

/-- The host component of a URL: the characters after the scheme
separator "://" (after nothing when there is none) up to the first
slash, question mark or hash. -/
def urlHost (url : String) : String :=
  String.mk
    (((afterFirstSep "://".data url.data).getD url.data).takeWhile
      (fun c => c ≠ '/' && c ≠ '?' && c ≠ '#'))

/-- Whether the first list is a suffix of the second. -/
def endsWithList (suff l : List Char) : Bool :=
  leadsEq suff.reverse l.reverse

/-- Whether a host is the given domain or one of its subdomains. -/
def hostMatchesDomain (host d : String) : Bool :=
  host = d || endsWithList ('.' :: d.data) host.data

/-- The encyclopedic/reference allow-list of the specification. -/
def hostOnAllowList (host : String) : Bool :=
  hostMatchesDomain host "wikipedia.org" || hostMatchesDomain host "britannica.com"

/-- Modelled from the spec: the strategy-selection rule as the
specification words it — (1) rendered fetching disabled by
configuration: lightweight; (2) the URL host on the encyclopedic
allow-list: lightweight; (3) otherwise rendered.  Stated for comparison
with the code-side `chooseStrategy`. -/
def specSelectStrategy (cfg : ScraperConfig) (url : String) : Strategy :=
  if !cfg.usePuppeteer then Strategy.lightweight
  else if hostOnAllowList (urlHost url) then Strategy.lightweight
  else Strategy.rendered

/-! ## The legacy callable variant
(src/functions/src/agents/web-scraper/web-scraper.js) -/

/-- The output of extractContent in web-scraper.js. -/
structure ExtractionResult where
  title : String
  description : String
  text : String
  headings : List Heading
  links : List Anchor
  url : String
deriving DecidableEq

/-- The structured summary object the openai call of processWithAI is
asked for. -/
structure StructuredSummary where
  summary : String
  keyPoints : List String
  topics : List String
  sentimentLabel : String
  entities : List String
deriving DecidableEq

/-- The value processWithAI returns: either the parsed structured
response, or the built-in fallback (which has an error field instead of
any degraded flag). -/
structure ProcessedData where
  summary : String
  keyPoints : List String
  topics : List String
  sentimentLabel : String
  entities : List String
  error : Option String := none
deriving DecidableEq

/-- The openai call of processWithAI, including the JSON parse of its
response: a malformed response is a failure of this step. -/
structure StructuredAIEnv where
  complete : String → Except String StructuredSummary

/-- The prompt context assembled by processWithAI. -/
def aiContext (url : String) (d : ExtractionResult) (text : String) : String :=
  "URL: " ++ url ++ "\nTITLE: " ++ d.title ++ "\nDESCRIPTION: " ++ d.description
    ++ "\n\nCONTENT:\n" ++ text ++ "\n\nHEADINGS:\n"
    ++ String.intercalate "\n"
        (d.headings.map (fun h =>
          String.mk (List.replicate h.level '-') ++ " " ++ h.content))

/-- processWithAI (web-scraper.js lines 244-314): truncate the text to
maxLength, call the structured summarizer, and on any failure return the
basic fallback object whose summary names the original title and
description — it never throws. -/
def processWithAI (ai : StructuredAIEnv) (d : ExtractionResult)
    (url : String) (maxLength : Nat) : ProcessedData :=
  let text := String.mk (d.text.data.take maxLength)
  match ai.complete (aiContext url d text) with
  | Except.ok r =>
    { summary := r.summary, keyPoints := r.keyPoints, topics := r.topics
      sentimentLabel := r.sentimentLabel, entities := r.entities }
  | Except.error e =>
    { summary := "Failed to generate AI summary. Original title: " ++ d.title
        ++ ". Description: " ++ d.description
      keyPoints := [], topics := [], sentimentLabel := "unknown", entities := []
      error := some e }

/-- The success shape of a PageResult: success is true, no error field,
and the content fields (title, description, main content, keyword match
counts, total, text length) are all present. -/
def successShape (r : PageResult) : Prop :=
  r.success = true ∧ r.error = none ∧ r.title.isSome ∧ r.description.isSome
    ∧ r.mainContent.isSome ∧ r.keywordMatches.isSome
    ∧ r.totalKeywordMatches.isSome ∧ r.textLength.isSome

/-- The failure shape of a PageResult: success is false, an error
description is present, and no content field is. -/
def failureShape (r : PageResult) : Prop :=
  r.success = false ∧ r.error.isSome ∧ r.title = none ∧ r.description = none
    ∧ r.mainContent = none ∧ r.keywordMatches = none
    ∧ r.totalKeywordMatches = none ∧ r.textLength = none
    ∧ r.headings = none ∧ r.links = none ∧ r.screenshotUrl = none

/-- A sample container for concrete executions. -/
def sampleContainer : Container :=
  { text := "hello world"
    headings := [{ level := 1, content := "hello" }]
    anchors := [{ href := "https://x.example/", text := "link" }] }

/-- A sample parsed document for concrete executions. -/
def sampleDoc : Doc :=
  { title := "Title"
    metaDescription := some "desc"
    ogDescription := none
    semanticMain := some sampleContainer
    containers := []
    body := sampleContainer }

/-! ## Helper lemmas -/

theorem leadsEq_iff_leading : ∀ (k l : List Char), leadsEq k l = true ↔ k <+: l
  | [], l => by simp [leadsEq]
  | _ :: _, [] => by simp [leadsEq]
  | k :: ks, c :: cs => by
    simp only [leadsEq, Bool.and_eq_true, decide_eq_true_eq, List.cons_prefix_cons]
    exact and_congr Iff.rfl (leadsEq_iff_leading ks cs)

theorem containsAt_substring_iff : ∀ (l sub : List Char), containsAt sub l = true ↔ sub <:+: l
  | [], sub => by
    simp [containsAt, List.infix_nil, List.isEmpty_iff]
  | c :: rest, sub => by
    simp only [containsAt, Bool.or_eq_true, leadsEq_iff_leading,
      containsAt_substring_iff rest sub, List.infix_cons_iff]

theorem endsWithList_iff (s l : List Char) : endsWithList s l = true ↔ s <:+ l := by
  rw [endsWithList, leadsEq_iff_leading, List.reverse_prefix]

theorem afterFirstSep_suffix :
    ∀ (sep l r : List Char), afterFirstSep sep l = some r → r <:+ l
  | _, [], _ => by simp [afterFirstSep]
  | sep, c :: rest, r => by
    simp only [afterFirstSep]
    split
    · intro h
      injection h with h
      subst h
      exact List.drop_suffix _ _
    · intro h
      exact (afterFirstSep_suffix sep rest r h).trans (List.suffix_cons c rest)

theorem urlHost_inside (url : String) : (urlHost url).data <:+: url.data := by
  unfold urlHost
  cases h : afterFirstSep "://".data url.data with
  | none =>
    simp only [h, Option.getD]
    exact (List.takeWhile_prefix _).isInfix
  | some r =>
    simp only [h, Option.getD]
    exact ((List.takeWhile_prefix _) : _ <+: r).isInfix.trans
      (afterFirstSep_suffix _ _ _ h).isInfix

theorem hostMatchesDomain_inside (host d : String)
    (h : hostMatchesDomain host d = true) : d.data <:+: host.data := by
  rw [hostMatchesDomain, Bool.or_eq_true] at h
  cases h with
  | inl h =>
    have hd : host = d := by simpa using h
    rw [hd]
  | inr h =>
    exact ((List.suffix_cons '.' d.data).trans ((endsWithList_iff _ _).mp h)).isInfix

/-- A successful attempt inside the retry budget returns its value. -/
theorem retryLoop_ok (att : Nat → Except String Doc)
    (maxRetries remaining retries : Nat) (v : Doc)
    (hv : att retries = Except.ok v) :
    retryLoop att maxRetries (remaining + 1) retries = Except.ok v := by
  simp [retryLoop, hv]

/-- A failed attempt with budget remaining moves to the next attempt. -/
theorem retryLoop_err_step (att : Nat → Except String Doc)
    (maxRetries remaining retries : Nat) (e : String)
    (h : retries + 1 < maxRetries) (he : att retries = Except.error e) :
    retryLoop att maxRetries (remaining + 1) retries
      = retryLoop att maxRetries remaining (retries + 1) := by
  simp [retryLoop, he]
  omega

/-- When every attempt fails, the loop throws the error of the last
attempt within the budget, attempt number maxRetries - 1. -/
theorem retryLoop_all_error (att : Nat → Except String Doc) (es : Nat → String)
    (hatt : ∀ i, att i = Except.error (es i)) (maxRetries : Nat) :
    ∀ (remaining retries : Nat), remaining ≠ 0 →
      retries + remaining = maxRetries →
      retryLoop att maxRetries remaining retries
        = Except.error (es (maxRetries - 1))
  | 0, _, h0, _ => absurd rfl h0
  | remaining + 1, retries, _, hsum => by
    rw [retryLoop, hatt retries]
    by_cases h2 : retries + 1 ≥ maxRetries
    · dsimp only
      rw [if_pos h2]
      have hr : retries = maxRetries - 1 := by omega
      rw [hr]
    · dsimp only
      rw [if_neg h2]
      exact retryLoop_all_error att es hatt maxRetries remaining (retries + 1)
        (by omega) (by omega)

/-- A fetch that fails its attempts before the third and succeeds on the
third returns the third attempt's value whenever the budget allows three
attempts. -/
theorem fetchRetryThird (att : Nat → Except String Doc) (maxRetries : Nat)
    (v : Doc) (e0 e1 : String) (h3 : 3 ≤ maxRetries)
    (h0 : att 0 = Except.error e0) (h1 : att 1 = Except.error e1)
    (h2 : att 2 = Except.ok v) :
    fetchWithRetry att maxRetries = Except.ok v := by
  obtain ⟨k, rfl⟩ : ∃ k, maxRetries = k + 3 := ⟨maxRetries - 3, by omega⟩
  unfold fetchWithRetry
  show retryLoop att (k + 3) (k + 2 + 1) 0 = Except.ok v
  rw [retryLoop_err_step att (k + 3) (k + 2) 0 e0 (by omega) h0]
  show retryLoop att (k + 3) (k + 1 + 1) 1 = Except.ok v
  rw [retryLoop_err_step att (k + 3) (k + 1) 1 e1 (by omega) h1]
  exact retryLoop_ok att (k + 3) k 2 v h2

/-- A fetch that succeeds immediately returns the first attempt's value
whenever the budget allows an attempt at all. -/
theorem fetchRetryImmediate (att : Nat → Except String Doc) (maxRetries : Nat)
    (v : Doc) (h1 : 1 ≤ maxRetries) (h : att 0 = Except.ok v) :
    fetchWithRetry att maxRetries = Except.ok v := by
  obtain ⟨k, rfl⟩ : ∃ k, maxRetries = k + 1 := ⟨maxRetries - 1, by omega⟩
  unfold fetchWithRetry
  exact retryLoop_ok att (k + 1) k 0 v h


/-- The scan count is zero exactly when no position of the text carries
a whole-word match of the keyword. -/
theorem jsWordCountAux_zero_iff :
    ∀ (s kw : List Char) (prev : Option Char),
      jsWordCountAux kw 0 prev s = 0 ↔ hasWordMatch kw prev s = false
  | [], kw, prev => by simp [jsWordCountAux, hasWordMatch]
  | c :: rest, kw, prev => by
    simp only [jsWordCountAux, hasWordMatch]
    cases hw : wordHit kw prev (c :: rest) with
    | true => simp [hw]
    | false => simp [hw, jsWordCountAux_zero_iff rest kw (some c)]

theorem kmLookup_overwrite (kw : String) (n : Nat) :
    ∀ (m : List (String × Nat)), m.any (fun p => p.1 = kw) = true →
      kmLookup (m.map (fun p => if p.1 = kw then (kw, n) else p)) kw = some n := by
  intro m
  induction m with
  | nil => intro h; simp at h
  | cons p rest ih =>
    obtain ⟨k, v⟩ := p
    intro h
    by_cases hp : k = kw
    · rw [List.map_cons, if_pos hp]
      simp [kmLookup]
    · have h2 : rest.any (fun p => p.1 = kw) = true := by
        rw [List.any_cons] at h
        simpa [hp] using h
      rw [List.map_cons, if_neg hp]
      simp only [kmLookup, if_neg hp]
      exact ih h2

theorem kmLookup_append_new (kw : String) (n : Nat) :
    ∀ (m : List (String × Nat)), m.any (fun p => p.1 = kw) = false →
      kmLookup (m ++ [(kw, n)]) kw = some n := by
  intro m
  induction m with
  | nil => intro _; simp [kmLookup]
  | cons p rest ih =>
    obtain ⟨k, v⟩ := p
    intro h
    rw [List.any_cons, Bool.or_eq_false_iff] at h
    have hp : ¬ k = kw := by simpa using h.1
    rw [List.cons_append]
    simp only [kmLookup, if_neg hp]
    exact ih h.2

theorem kmLookup_insertKM_self (m : List (String × Nat)) (kw : String) (n : Nat) :
    kmLookup (insertKM m kw n) kw = some n := by
  rw [insertKM]
  by_cases h : m.any (fun p => p.1 = kw) = true
  · rw [if_pos h]
    exact kmLookup_overwrite kw n m h
  · rw [if_neg h]
    refine kmLookup_append_new kw n m ?_
    simp only [Bool.not_eq_true] at h
    exact h

theorem kmLookup_map_other (kw k' : String) (n : Nat) (h : k' ≠ kw) :
    ∀ (m : List (String × Nat)),
      kmLookup (m.map (fun p => if p.1 = kw then (kw, n) else p)) k' = kmLookup m k' := by
  intro m
  induction m with
  | nil => rfl
  | cons p rest ih =>
    obtain ⟨k, v⟩ := p
    by_cases hp : k = kw
    · have hk : ¬ kw = k' := fun he => h he.symm
      have hk2 : ¬ k = k' := by rw [hp]; exact hk
      rw [List.map_cons, if_pos hp]
      simp only [kmLookup, if_neg hk, if_neg hk2]
      exact ih
    · rw [List.map_cons, if_neg hp]
      simp only [kmLookup]
      by_cases hq : k = k'
      · rw [if_pos hq, if_pos hq]
      · rw [if_neg hq, if_neg hq]
        exact ih

theorem kmLookup_append_other (kw k' : String) (n : Nat) (h : k' ≠ kw) :
    ∀ (m : List (String × Nat)),
      kmLookup (m ++ [(kw, n)]) k' = kmLookup m k' := by
  intro m
  induction m with
  | nil =>
    have hk : ¬ kw = k' := fun he => h he.symm
    simp [kmLookup, hk]
  | cons p rest ih =>
    obtain ⟨k, v⟩ := p
    rw [List.cons_append]
    simp only [kmLookup]
    by_cases hq : k = k'
    · rw [if_pos hq, if_pos hq]
    · rw [if_neg hq, if_neg hq]
      exact ih

theorem kmLookup_insertKM_other (m : List (String × Nat)) (kw k' : String)
    (n : Nat) (h : k' ≠ kw) :
    kmLookup (insertKM m kw n) k' = kmLookup m k' := by
  rw [insertKM]
  split
  · exact kmLookup_map_other kw k' n h m
  · exact kmLookup_append_other kw k' n h m

/-- Every keyword the scoring fold has processed is mapped to its
whole-word count. -/
theorem scoreFold_lookup (text : String) :
    ∀ (keywords : List String) (m : List (String × Nat)) (kw : String),
      kw ∈ keywords ∨ kmLookup m kw = some (jsWordCount text kw) →
      kmLookup (keywords.foldl (scoreStep text) m) kw
        = some (jsWordCount text kw) := by
  intro keywords
  induction keywords with
  | nil =>
    intro m kw h
    rcases h with h | h
    · cases h
    · simpa using h
  | cons k ks ih =>
    intro m kw h
    rw [List.foldl_cons]
    apply ih
    rcases h with h | h
    · rcases List.mem_cons.mp h with rfl | hmem
      · right
        rw [scoreStep]
        exact kmLookup_insertKM_self m kw _
      · left
        exact hmem
    · by_cases hk : kw = k
      · subst hk
        right
        rw [scoreStep]
        exact kmLookup_insertKM_self m kw _
      · right
        rw [scoreStep, kmLookup_insertKM_other m k kw _ hk]
        exact h

/-- On a list of plain keywords the scoring loop never throws: it
returns the pure score map. -/
theorem buildKM_eq_scoreFold (text : String) :
    ∀ (keywords : List String) (m : List (String × Nat)),
      keywords.all plainKeyword = true →
      keywords.foldlM
          (fun m kw =>
            if plainKeyword kw then
              Except.ok (insertKM m kw (jsWordCount text kw))
            else
              Except.error "SyntaxError: Invalid regular expression")
          m
        = Except.ok (keywords.foldl (scoreStep text) m) := by
  intro keywords
  induction keywords with
  | nil => intro m _; rfl
  | cons k ks ih =>
    intro m h
    rw [List.all_cons, Bool.and_eq_true] at h
    rw [List.foldlM_cons, if_pos h.1]
    rw [List.foldl_cons]
    exact ih (insertKM m k (jsWordCount text k)) h.2

/-- Specification of the largest-text-container fold: either no
container beats the starting threshold and the start pair survives with
every container at or below the threshold, or the fold returns the first
container that attains the maximum trimmed text length, with every
earlier container strictly below it and every container at or below
it. -/
theorem selBest_fold_spec :
    ∀ (cs : List Container) (b : Container) (k : Nat),
      (cs.foldl selBest (b, k) = (b, k) ∧ ∀ c ∈ cs, trimLen c ≤ k)
      ∨ (∃ pre c post, cs = pre ++ c :: post
          ∧ cs.foldl selBest (b, k) = (c, trimLen c)
          ∧ k < trimLen c
          ∧ (∀ d ∈ pre, trimLen d < trimLen c)
          ∧ (∀ d ∈ cs, trimLen d ≤ trimLen c)) := by
  intro cs
  induction cs with
  | nil =>
    intro b k
    exact Or.inl ⟨rfl, by simp⟩
  | cons x cs ih =>
    intro b k
    rw [List.foldl_cons]
    by_cases hx : trimLen x ≤ k
    · have hsel : selBest (b, k) x = (b, k) := by
        rw [selBest, if_neg (by omega)]
      rw [hsel]
      rcases ih b k with ⟨hf, hall⟩ | ⟨pre, c, post, hcs, hf, hk, hpre, hall⟩
      · refine Or.inl ⟨hf, ?_⟩
        intro d hd
        rcases List.mem_cons.mp hd with rfl | hd
        · exact hx
        · exact hall d hd
      · refine Or.inr ⟨x :: pre, c, post, by simp [hcs], hf, hk, ?_, ?_⟩
        · intro d hd
          rcases List.mem_cons.mp hd with rfl | hd
          · omega
          · exact hpre d hd
        · intro d hd
          rcases List.mem_cons.mp hd with rfl | hd
          · omega
          · exact hall d hd
    · have hsel : selBest (b, k) x = (x, trimLen x) := by
        rw [selBest, if_pos (by omega)]
      rw [hsel]
      rcases ih x (trimLen x) with ⟨hf, hall⟩ | ⟨pre, c, post, hcs, hf, hk, hpre, hall⟩
      · refine Or.inr ⟨[], x, cs, by simp, hf, by omega, by simp, ?_⟩
        intro d hd
        rcases List.mem_cons.mp hd with rfl | hd
        · exact Nat.le_refl _
        · exact hall d hd
      · refine Or.inr ⟨x :: pre, c, post, by simp [hcs], hf, by omega, ?_, ?_⟩
        · intro d hd
          rcases List.mem_cons.mp hd with rfl | hd
          · omega
          · exact hpre d hd
        · intro d hd
          rcases List.mem_cons.mp hd with rfl | hd
          · omega
          · exact hall d hd

/-! ## Claims -/

/-- C1: the claim says that a job whose only run-time failures happen
inside the per-URL scrape loop still reaches status "completed" with
successCount 0.  The code cannot do this: line 188 of
src/unnamed/part_000 evaluates `browser.close()` on an undeclared
variable, which always throws after the loop and sends every execution
to the catch block, so a job whose every collaborator step succeeds and
whose one URL fails its scrape ends with status "failed", error
"browser is not defined", and no successCount written.  This evaluates
runScrapingJob at exactly such an execution. -/
theorem runScrapingJob_always_fails_c1 :
    (runScrapingJob
      { updateRunning := Except.ok ()
        getJob := Except.ok
          { urls := ["https://a.example/"], keywords := ["ai"], taskId := none }
        scrape := fun _ _ => Except.error "net timeout"
        saveScrapedData := Except.ok ()
        uploadRaw := Except.ok ()
        updateCompleted := Except.ok () }).record
      = { status := "failed", error := some "browser is not defined" } := by
  rfl

/-- C2: the claim says a finished job records resultCount = N and a
result list of N entries in input order.  The per-URL loop does build
that list (first conjunct: two URLs give the two entries in input
order), but the job then throws at the undefined `browser` reference
before any persistence, so the result list is never saved and
resultCount is never written: the job document ends failed with no
resultCount (remaining conjuncts). -/
theorem runScrapingJob_never_records_counts_c2 :
    collectResults
        (fun i _ => if i = 0 then
          Except.ok { url := "https://a.example/", success := true }
         else Except.error "boom")
        0 ["https://a.example/", "https://b.example/"]
      = [{ url := "https://a.example/", success := true },
         catchEntry "https://b.example/" "boom"]
    ∧ (runScrapingJob
        { updateRunning := Except.ok ()
          getJob := Except.ok
            { urls := ["https://a.example/", "https://b.example/"],
              keywords := [], taskId := none }
          scrape := fun i _ => if i = 0 then
              Except.ok { url := "https://a.example/", success := true }
            else Except.error "boom"
          saveScrapedData := Except.ok ()
          uploadRaw := Except.ok ()
          updateCompleted := Except.ok () })
      = { record := { status := "failed", error := some "browser is not defined" }
          savedResults := none } := by
  exact ⟨rfl, rfl⟩

/-- Both exits of searchForUrls cut their list with slice(0, maxResults),
so the result length never exceeds maxResults. -/
theorem ifTakeLengthLe (l fb : List String) (m : Nat) :
    (if l.length > 0 then l.take m else fb.take m).length ≤ m := by
  split
  · exact List.length_take_le m l
  · exact List.length_take_le m fb

/-- C4 counterexample: the claim says discover("", 3) returns an empty
sequence.  It does not: the empty query matches no topic rule, so the
code falls through to the two fixed search-engine URLs (with the empty
string percent-encoded onto their query parameters) and returns both of
them. -/
theorem searchForUrls_empty_query_counterexample_c4 :
    searchForUrls { logActivity := Except.ok () } "" 3
      = ["https://en.wikipedia.org/wiki/Special:Search?search=",
         "https://www.britannica.com/search?query="] := by
  rfl

/-- C4 amended: discovery never throws (it is a total function whose
internal-error branch returns the empty list, second conjunct), the
result list never exceeds maxResults (first conjunct), and
discover("what is quantum computing", 3) returns exactly one URL, the
Wikipedia lookup of the stripped topic (third conjunct).  However
discover("", 3) returns the two fallback search URLs, not an empty
sequence. -/
theorem searchForUrls_amended_c4 :
    (∀ env query maxResults,
      (searchForUrls env query maxResults).length ≤ maxResults)
    ∧ (∀ query maxResults e,
      searchForUrls { logActivity := Except.error e } query maxResults = [])
    ∧ searchForUrls { logActivity := Except.ok () } "what is quantum computing" 3
        = ["https://en.wikipedia.org/wiki/quantum%20computing"] := by
  refine ⟨?_, ?_, ?_⟩
  · intro env query maxResults
    obtain ⟨log⟩ := env
    cases log with
    | error e => exact Nat.zero_le maxResults
    | ok u =>
      cases u
      unfold searchForUrls
      dsimp only
      exact ifTakeLengthLe _ _ _
  · intro query maxResults e
    rfl
  · rfl

/-- C7 counterexample: the claim says selection is host-based, so a URL
whose host is not on the allow-list gets the rendered strategy when
rendered fetching is enabled.  The code tests substring containment over
the whole URL instead: for https://example.com/wikipedia.org (host
example.com, not on the allow-list, with the default configuration that
enables Puppeteer) the code chooses lightweight where the claimed rule
chooses rendered. -/
theorem chooseStrategy_counterexample_c7 :
    chooseStrategy { } "https://example.com/wikipedia.org" = Strategy.lightweight
    ∧ specSelectStrategy { } "https://example.com/wikipedia.org" = Strategy.rendered
    ∧ urlHost "https://example.com/wikipedia.org" = "example.com" := by
  exact ⟨rfl, by decide, by decide⟩

/-- C7 amended: strategy selection is the pure deterministic function
chooseStrategy of (url, config), evaluated on each scrapeUrl call, with
the rules: (1) Puppeteer disabled gives lightweight; (2) a URL that
contains "wikipedia.org" or "britannica.com" as a substring gives
lightweight even when Puppeteer is enabled — in particular every URL
whose host is one of those domains or a subdomain of them (conjunct 4);
(3) otherwise rendered.  The code inspects the whole URL string, not the
host component. -/
theorem chooseStrategy_amended_c7 :
    ∀ (cfg : ScraperConfig) (url : String),
      (cfg.usePuppeteer = false → chooseStrategy cfg url = Strategy.lightweight)
      ∧ ((jsIncludes url "wikipedia.org" || jsIncludes url "britannica.com") = true →
          chooseStrategy cfg url = Strategy.lightweight)
      ∧ (cfg.usePuppeteer = true → jsIncludes url "wikipedia.org" = false →
          jsIncludes url "britannica.com" = false →
          chooseStrategy cfg url = Strategy.rendered)
      ∧ (hostOnAllowList (urlHost url) = true →
          chooseStrategy cfg url = Strategy.lightweight) := by
  intro cfg url
  refine ⟨?_, ?_, ?_, ?_⟩
  · intro h
    simp [chooseStrategy, h]
  · intro h
    rw [Bool.or_eq_true] at h
    rcases h with h | h <;> simp [chooseStrategy, h]
  · intro h1 h2 h3
    simp [chooseStrategy, h1, h2, h3]
  · intro h
    rw [hostOnAllowList, Bool.or_eq_true] at h
    have hI : jsIncludes url "wikipedia.org" = true
        ∨ jsIncludes url "britannica.com" = true := by
      rcases h with h | h
      · exact Or.inl ((containsAt_substring_iff _ _).mpr
          ((hostMatchesDomain_inside _ _ h).trans (urlHost_inside url)))
      · exact Or.inr ((containsAt_substring_iff _ _).mpr
          ((hostMatchesDomain_inside _ _ h).trans (urlHost_inside url)))
    rcases hI with h | h <;> simp [chooseStrategy, h]

/-- Witness for C7 amended: a Wikipedia URL, whose host en.wikipedia.org
is a subdomain on the allow-list, gets the lightweight strategy under
the default configuration. -/
theorem chooseStrategy_amended_c7_witness :
    chooseStrategy { } "https://en.wikipedia.org/wiki/Logic" = Strategy.lightweight :=
  (chooseStrategy_amended_c7 { } "https://en.wikipedia.org/wiki/Logic").2.2.2
    (by decide)

/-- C9: with a budget of maxRetries ≥ 3 attempts, a lightweight fetch
whose first two attempts fail and whose third succeeds returns the same
successful value as a fetch that succeeds on its first attempt (first
conjunct), and the whole lightweight scrape result is then identical for
the two fetch behaviours (third conjunct); when every attempt fails, the
fetch fails carrying the error of the last attempt made, attempt number
maxRetries - 1 (second conjunct). -/
theorem fetchWithRetry_c9 :
    (∀ (fetch fetch2 : FetchEnv) (maxRetries : Nat) (v : Doc) (e0 e1 : String),
      3 ≤ maxRetries →
      fetch.attempts 0 = Except.error e0 →
      fetch.attempts 1 = Except.error e1 →
      fetch.attempts 2 = Except.ok v →
      fetch2.attempts 0 = Except.ok v →
      fetchWithRetry fetch.attempts maxRetries = Except.ok v
      ∧ fetchWithRetry fetch2.attempts maxRetries = Except.ok v)
    ∧ (∀ (fetch : FetchEnv) (es : Nat → String) (maxRetries : Nat),
      1 ≤ maxRetries →
      (∀ i, fetch.attempts i = Except.error (es i)) →
      fetchWithRetry fetch.attempts maxRetries
        = Except.error (es (maxRetries - 1)))
    ∧ (∀ (cfg : ScraperConfig) (ai : AIEnv) (fetch fetch2 : FetchEnv)
        (url : String) (kws : List String) (v : Doc) (e0 e1 : String),
      3 ≤ cfg.maxRetries →
      fetch.attempts 0 = Except.error e0 →
      fetch.attempts 1 = Except.error e1 →
      fetch.attempts 2 = Except.ok v →
      fetch2.attempts 0 = Except.ok v →
      scrapeWithoutBrowser cfg ai fetch url kws
        = scrapeWithoutBrowser cfg ai fetch2 url kws) := by
  refine ⟨?_, ?_, ?_⟩
  · intro fetch fetch2 maxRetries v e0 e1 h3 h0 h1 h2 hb
    exact ⟨fetchRetryThird _ _ _ _ _ h3 h0 h1 h2,
      fetchRetryImmediate _ _ _ (by omega) hb⟩
  · intro fetch es maxRetries hm hatt
    exact retryLoop_all_error fetch.attempts es hatt maxRetries maxRetries 0
      (by omega) (by omega)
  · intro cfg ai fetch fetch2 url kws v e0 e1 h3 h0 h1 h2 hb
    have ha : fetchWithRetry fetch.attempts cfg.maxRetries = Except.ok v :=
      fetchRetryThird _ _ _ _ _ h3 h0 h1 h2
    have hbi : fetchWithRetry fetch2.attempts cfg.maxRetries = Except.ok v :=
      fetchRetryImmediate _ _ _ (by omega) hb
    unfold scrapeWithoutBrowser
    rw [ha, hbi]

/-- Witness for C9: budget 3, two timeouts then a success, compared with
an immediate success on the sample document. -/
theorem fetchWithRetry_c9_witness :
    fetchWithRetry
        (fun i => if i < 2 then Except.error "timeout" else Except.ok sampleDoc) 3
      = Except.ok sampleDoc
    ∧ fetchWithRetry (fun _ => Except.ok sampleDoc) 3 = Except.ok sampleDoc :=
  fetchWithRetry_c9.1
    { attempts := fun i => if i < 2 then Except.error "timeout" else Except.ok sampleDoc }
    { attempts := fun _ => Except.ok sampleDoc }
    3 sampleDoc "timeout" "timeout" (by omega) rfl rfl rfl rfl

/-- C5 counterexample: the claim says score never raises an error for
any keyword list.  The scoring loop interpolates each keyword into the
regular expression source "\b" + keyword + "\b", so the keyword "("
produces the invalid pattern with an unterminated group and the RegExp
constructor throws a SyntaxError out of the loop. -/
theorem buildKeywordMatches_counterexample_c5 :
    buildKeywordMatches "foo bar" ["("]
      = Except.error "SyntaxError: Invalid regular expression" := by
  rfl

/-- C5 amended: restricted to keyword lists of plain keywords (word
characters, hyphens and spaces — those whose interpolated pattern is a
literal whole-word search), scoring never raises and maps each keyword
to its case-insensitive whole-word match count (first conjunct); a
keyword with no whole-word occurrence in the text maps to zero, never an
error (second conjunct); the empty keyword list gives the empty map with
total zero (third conjunct); and the GPT-4 example scores 2 (last
conjunct).  A keyword outside the plain class can make the interpolated
regular expression invalid, in which case the constructor throws. -/
theorem buildKeywordMatches_amended_c5 :
    (∀ (text : String) (keywords : List String),
      keywords.all plainKeyword = true →
      buildKeywordMatches text keywords = Except.ok (scoreMap text keywords)
      ∧ ∀ kw ∈ keywords,
          kmLookup (scoreMap text keywords) kw = some (jsWordCount text kw))
    ∧ (∀ (text kw : String), hasWordMatch kw.data none text.data = false →
        jsWordCount text kw = 0)
    ∧ (∀ text : String,
        buildKeywordMatches text [] = Except.ok [] ∧ totalMatches [] = 0)
    ∧ (buildKeywordMatches "GPT-4 is here. GPT-4 rocks." ["GPT-4"]
        = Except.ok [("GPT-4", 2)]
      ∧ totalMatches [("GPT-4", 2)] = 2) := by
  refine ⟨?_, ?_, ?_, ?_⟩
  · intro text keywords h
    constructor
    · exact buildKM_eq_scoreFold text keywords [] h
    · intro kw hkw
      exact scoreFold_lookup text keywords [] kw (Or.inl hkw)
  · intro text kw h
    exact (jsWordCountAux_zero_iff _ _ _).mpr h
  · intro text
    exact ⟨rfl, rfl⟩
  · exact ⟨by rfl, by rfl⟩

/-- Witness for C5 amended: a two-keyword list where the second keyword
is absent from the text. -/
theorem buildKeywordMatches_amended_c5_witness :
    buildKeywordMatches "alpha beta" ["beta", "gamma"]
      = Except.ok (scoreMap "alpha beta" ["beta", "gamma"])
    ∧ jsWordCount "alpha beta" "gamma" = 0 :=
  ⟨(buildKeywordMatches_amended_c5.1 "alpha beta" ["beta", "gamma"] (by decide)).1,
   buildKeywordMatches_amended_c5.2.1 "alpha beta" "gamma" (by decide)⟩

/-- A PageResult cannot carry both shapes at once. -/
theorem shapes_split (r : PageResult) (hs : successShape r)
    (hf : failureShape r) : False :=
  Bool.noConfusion (hs.1.symm.trans hf.1)

/-- The lightweight catch result has the failure shape. -/
theorem lightFailure_failureShape (url e : String) :
    failureShape (lightFailure url e) :=
  ⟨rfl, rfl, rfl, rfl, rfl, rfl, rfl, rfl, rfl, rfl, rfl⟩

/-- The rendered catch result has the failure shape. -/
theorem renderedFailure_failureShape (url e : String) :
    failureShape (renderedFailure url e) :=
  ⟨rfl, rfl, rfl, rfl, rfl, rfl, rfl, rfl, rfl, rfl, rfl⟩

/-- The job-loop catch entry has the failure shape. -/
theorem catchEntry_failureShape (url e : String) :
    failureShape (catchEntry url e) :=
  ⟨rfl, rfl, rfl, rfl, rfl, rfl, rfl, rfl, rfl, rfl, rfl⟩

/-- C6: every PageResult the scrapers construct has exactly one of the
two shapes — success with the content fields present and no error, or
failure with an error and no content fields — on the lightweight path
(first conjunct), on the rendered path (second conjunct) and for the
job-loop catch entry (third conjunct); and the i-th entry of the job's
result list is a function of the i-th URL and that URL's own scrape
outcome alone, so one URL's failure never alters another URL's entry
(fourth conjunct). -/
theorem pageResult_shapes_c6 :
    (∀ (cfg : ScraperConfig) (ai : AIEnv) (fetch : FetchEnv)
        (url : String) (kws : List String),
      (successShape (scrapeWithoutBrowser cfg ai fetch url kws)
        ∧ ¬ failureShape (scrapeWithoutBrowser cfg ai fetch url kws))
      ∨ (failureShape (scrapeWithoutBrowser cfg ai fetch url kws)
        ∧ ¬ successShape (scrapeWithoutBrowser cfg ai fetch url kws)))
    ∧ (∀ (cfg : ScraperConfig) (ai : AIEnv) (renv : RenderEnv)
        (url : String) (kws : List String) (r : PageResult),
      scrapePage cfg ai renv url kws = Except.ok r →
      (successShape r ∧ ¬ failureShape r) ∨ (failureShape r ∧ ¬ successShape r))
    ∧ (∀ url e, failureShape (catchEntry url e)
        ∧ ¬ successShape (catchEntry url e))
    ∧ (∀ (scrape : Nat → String → Except String PageResult) (i j : Nat)
        (urls : List String),
      (collectResults scrape i urls).get? j
        = (urls.get? j).map (fun u =>
            match scrape (i + j) u with
            | Except.ok r => r
            | Except.error e => catchEntry u e)) := by
  refine ⟨?_, ?_, ?_, ?_⟩
  · intro cfg ai fetch url kws
    rw [scrapeWithoutBrowser]
    cases hF : fetchWithRetry fetch.attempts cfg.maxRetries with
    | error e =>
      exact Or.inr ⟨lightFailure_failureShape url e,
        fun hs => shapes_split _ hs (lightFailure_failureShape url e)⟩
    | ok doc =>
      dsimp only
      cases hK : buildKeywordMatches (collapseWs (mainElementOf doc).text) kws with
      | error e =>
        exact Or.inr ⟨lightFailure_failureShape url e,
          fun hs => shapes_split _ hs (lightFailure_failureShape url e)⟩
      | ok km =>
        dsimp only
        cases hM : (if cfg.enableAIExtraction then
            extractMainContent ai cfg (collapseWs (mainElementOf doc).text) kws
          else Except.ok (collapseWs (mainElementOf doc).text)) with
        | error e =>
          exact Or.inr ⟨lightFailure_failureShape url e,
            fun hs => shapes_split _ hs (lightFailure_failureShape url e)⟩
        | ok mc =>
          have hs : successShape
              { url := url, success := true
                title := some (jsTrim doc.title)
                description := some (descriptionOf doc)
                mainContent := some mc
                keywordMatches := some km
                totalKeywordMatches := some (totalMatches km)
                textLength := some (collapseWs (mainElementOf doc).text).data.length
                headings := some (extractHeadings (mainElementOf doc))
                links := some ((extractAnchors (mainElementOf doc)).take 20)
                method := some "lightweight" } :=
            ⟨rfl, rfl, rfl, rfl, rfl, rfl, rfl, rfl⟩
          exact Or.inl ⟨hs, fun hf => shapes_split _ hs hf⟩
  · intro cfg ai renv url kws r hr
    rw [scrapePage] at hr
    cases hN : renv.newPage with
    | error e =>
      rw [hN] at hr
      exact Except.noConfusion hr
    | ok u =>
      rw [hN] at hr
      injection hr with hr
      subst hr
      cases hG : renv.goto with
      | error e =>
        exact Or.inr ⟨renderedFailure_failureShape url e,
          fun hs => shapes_split _ hs (renderedFailure_failureShape url e)⟩
      | ok page =>
        dsimp only
        cases hS : renv.screenshot with
        | error e =>
          exact Or.inr ⟨renderedFailure_failureShape url e,
            fun hs => shapes_split _ hs (renderedFailure_failureShape url e)⟩
        | ok u2 =>
          dsimp only
          cases hE : extractMainContent ai cfg page.textContent kws with
          | error e =>
            exact Or.inr ⟨renderedFailure_failureShape url e,
              fun hs => shapes_split _ hs (renderedFailure_failureShape url e)⟩
          | ok mc =>
            dsimp only
            cases hK : buildKeywordMatches page.textContent kws with
            | error e =>
              exact Or.inr ⟨renderedFailure_failureShape url e,
                fun hs => shapes_split _ hs (renderedFailure_failureShape url e)⟩
            | ok km =>
              dsimp only
              cases hU : renv.uploadScreenshot with
              | error e =>
                exact Or.inr ⟨renderedFailure_failureShape url e,
                  fun hs => shapes_split _ hs (renderedFailure_failureShape url e)⟩
              | ok ssUrl =>
                have hs : successShape
                    { url := url, success := true
                      title := some page.title
                      description := some page.description
                      mainContent := some mc
                      keywordMatches := some km
                      totalKeywordMatches := some (totalMatches km)
                      textLength := some page.textContent.data.length
                      screenshotUrl := some ssUrl } :=
                  ⟨rfl, rfl, rfl, rfl, rfl, rfl, rfl, rfl⟩
                exact Or.inl ⟨hs, fun hf => shapes_split _ hs hf⟩
  · intro url e
    exact ⟨catchEntry_failureShape url e,
      fun hs => shapes_split _ hs (catchEntry_failureShape url e)⟩
  · intro scrape i j urls
    induction urls generalizing i j with
    | nil => simp [collectResults]
    | cons u rest ih =>
      cases j with
      | zero => simp [collectResults]
      | succ j =>
        have harith : i + 1 + j = i + (j + 1) := by omega
        simp only [collectResults, List.get?_cons_succ, ih (i + 1) j, harith]

/-- Witness for C6: a concrete rendered scrape that succeeds, checked
against the shape dichotomy. -/
theorem pageResult_shapes_c6_witness :
    (successShape
        { url := "https://a.example/", success := true, title := some "T"
          description := some "D", mainContent := some "M"
          keywordMatches := some [], totalKeywordMatches := some 0
          textLength := some 2, screenshotUrl := some "S" }
      ∧ ¬ failureShape
        { url := "https://a.example/", success := true, title := some "T"
          description := some "D", mainContent := some "M"
          keywordMatches := some [], totalKeywordMatches := some 0
          textLength := some 2, screenshotUrl := some "S" })
    ∨ (failureShape
        { url := "https://a.example/", success := true, title := some "T"
          description := some "D", mainContent := some "M"
          keywordMatches := some [], totalKeywordMatches := some 0
          textLength := some 2, screenshotUrl := some "S" }
      ∧ ¬ successShape
        { url := "https://a.example/", success := true, title := some "T"
          description := some "D", mainContent := some "M"
          keywordMatches := some [], totalKeywordMatches := some 0
          textLength := some 2, screenshotUrl := some "S" }) :=
  pageResult_shapes_c6.2.1
    { }
    { openaiAvailable := false, openaiComplete := fun _ => Except.error "off"
      generateText := fun _ => Except.ok "M" }
    { newPage := Except.ok ()
      goto := Except.ok { title := "T", description := "D", textContent := "hi" }
      screenshot := Except.ok (), uploadScreenshot := Except.ok "S" }
    "https://a.example/" [] _ rfl

/-- C10: a successful rendered scrape carries a screenshot reference and
no headings, links or method field (first conjunct); a successful
lightweight scrape carries the headings of the selected main element,
the extracted links cut to the first 20, method "lightweight", and no
screenshot reference (second conjunct). -/
theorem resultShape_by_method_c10 :
    (∀ (cfg : ScraperConfig) (ai : AIEnv) (renv : RenderEnv) (url : String)
        (kws : List String) (r : PageResult),
      scrapePage cfg ai renv url kws = Except.ok r → r.success = true →
      r.screenshotUrl.isSome ∧ r.headings = none ∧ r.links = none
        ∧ r.method = none)
    ∧ (∀ (cfg : ScraperConfig) (ai : AIEnv) (fetch : FetchEnv) (url : String)
        (kws : List String) (doc : Doc),
      fetchWithRetry fetch.attempts cfg.maxRetries = Except.ok doc →
      (scrapeWithoutBrowser cfg ai fetch url kws).success = true →
      (scrapeWithoutBrowser cfg ai fetch url kws).headings
          = some (extractHeadings (mainElementOf doc))
        ∧ (scrapeWithoutBrowser cfg ai fetch url kws).links
          = some ((extractAnchors (mainElementOf doc)).take 20)
        ∧ (scrapeWithoutBrowser cfg ai fetch url kws).method = some "lightweight"
        ∧ (scrapeWithoutBrowser cfg ai fetch url kws).screenshotUrl = none) := by
  constructor
  · intro cfg ai renv url kws r hr hsucc
    rw [scrapePage] at hr
    cases hN : renv.newPage with
    | error e =>
      rw [hN] at hr
      exact Except.noConfusion hr
    | ok u =>
      rw [hN] at hr
      injection hr with hr
      subst hr
      cases hG : renv.goto with
      | error e =>
        rw [hG] at hsucc
        exact absurd hsucc (by simp [renderedFailure])
      | ok page =>
        rw [hG] at hsucc
        dsimp only at hsucc ⊢
        cases hS : renv.screenshot with
        | error e =>
          rw [hS] at hsucc
          dsimp only at hsucc
          exact absurd hsucc (by simp [renderedFailure])
        | ok u2 =>
          rw [hS] at hsucc
          dsimp only at hsucc ⊢
          cases hE : extractMainContent ai cfg page.textContent kws with
          | error e =>
            rw [hE] at hsucc
            dsimp only at hsucc
            exact absurd hsucc (by simp [renderedFailure])
          | ok mc =>
            rw [hE] at hsucc
            dsimp only at hsucc ⊢
            cases hK : buildKeywordMatches page.textContent kws with
            | error e =>
              rw [hK] at hsucc
              dsimp only at hsucc
              exact absurd hsucc (by simp [renderedFailure])
            | ok km =>
              rw [hK] at hsucc
              dsimp only at hsucc ⊢
              cases hU : renv.uploadScreenshot with
              | error e =>
                rw [hU] at hsucc
                dsimp only at hsucc
                exact absurd hsucc (by simp [renderedFailure])
              | ok ssUrl =>
                exact ⟨rfl, rfl, rfl, rfl⟩
  · intro cfg ai fetch url kws doc hF hsucc
    rw [scrapeWithoutBrowser, hF] at hsucc ⊢
    dsimp only at hsucc ⊢
    cases hK : buildKeywordMatches (collapseWs (mainElementOf doc).text) kws with
    | error e =>
      rw [hK] at hsucc
      dsimp only at hsucc
      exact absurd hsucc (by simp [lightFailure])
    | ok km =>
      rw [hK] at hsucc
      dsimp only at hsucc ⊢
      cases hM : (if cfg.enableAIExtraction then
          extractMainContent ai cfg (collapseWs (mainElementOf doc).text) kws
        else Except.ok (collapseWs (mainElementOf doc).text)) with
      | error e =>
        rw [hM] at hsucc
        dsimp only at hsucc
        exact absurd hsucc (by simp [lightFailure])
      | ok mc =>
        exact ⟨rfl, rfl, rfl, rfl⟩

/-- Witness for C10: the concrete rendered success of the C6 witness
environment and a concrete lightweight success on the sample document. -/
theorem resultShape_by_method_c10_witness :
    ((Option.isSome (some "S") : Prop) ∧ (none : Option (List Heading)) = none
      ∧ (none : Option (List Anchor)) = none ∧ (none : Option String) = none)
    ∧ ((scrapeWithoutBrowser { }
          { openaiAvailable := false, openaiComplete := fun _ => Except.error "off"
            generateText := fun _ => Except.ok "M" }
          { attempts := fun _ => Except.ok sampleDoc }
          "https://a.example/" []).headings
        = some (extractHeadings (mainElementOf sampleDoc))
      ∧ (scrapeWithoutBrowser { }
          { openaiAvailable := false, openaiComplete := fun _ => Except.error "off"
            generateText := fun _ => Except.ok "M" }
          { attempts := fun _ => Except.ok sampleDoc }
          "https://a.example/" []).links
        = some ((extractAnchors (mainElementOf sampleDoc)).take 20)
      ∧ (scrapeWithoutBrowser { }
          { openaiAvailable := false, openaiComplete := fun _ => Except.error "off"
            generateText := fun _ => Except.ok "M" }
          { attempts := fun _ => Except.ok sampleDoc }
          "https://a.example/" []).method = some "lightweight"
      ∧ (scrapeWithoutBrowser { }
          { openaiAvailable := false, openaiComplete := fun _ => Except.error "off"
            generateText := fun _ => Except.ok "M" }
          { attempts := fun _ => Except.ok sampleDoc }
          "https://a.example/" []).screenshotUrl = none) :=
  ⟨resultShape_by_method_c10.1
    { }
    { openaiAvailable := false, openaiComplete := fun _ => Except.error "off"
      generateText := fun _ => Except.ok "M" }
    { newPage := Except.ok ()
      goto := Except.ok { title := "T", description := "D", textContent := "hi" }
      screenshot := Except.ok (), uploadScreenshot := Except.ok "S" }
    "https://a.example/" [] _ rfl rfl,
   resultShape_by_method_c10.2
    { }
    { openaiAvailable := false, openaiComplete := fun _ => Except.error "off"
      generateText := fun _ => Except.ok "M" }
    { attempts := fun _ => Except.ok sampleDoc }
    "https://a.example/" [] sampleDoc rfl rfl⟩

set_option maxRecDepth 10000 in
/-- C8: when the semantic selection is empty the extractor runs the
largest-text scan (first conjunct, definitional); if no div or section
container has any trimmed text the document body is selected (second
conjunct); if some container has text, the selected container is the
first one attaining the maximum trimmed text length — every earlier
container is strictly shorter and no container is longer (third
conjunct); in particular, with two containers of trimmed text lengths
100 and 500 the 500-length container is selected (fourth conjunct), and
a tie is broken in favour of the earlier container (fifth conjunct). -/
theorem largestTextContainer_c8 :
    (∀ doc : Doc, doc.semanticMain = none →
      mainElementOf doc = largestTextContainer doc.body doc.containers)
    ∧ (∀ (body : Container) (cs : List Container),
      (∀ c ∈ cs, trimLen c = 0) → largestTextContainer body cs = body)
    ∧ (∀ (body : Container) (cs : List Container),
      (∃ c ∈ cs, 0 < trimLen c) →
      ∃ pre c post, cs = pre ++ c :: post
        ∧ largestTextContainer body cs = c
        ∧ (∀ d ∈ pre, trimLen d < trimLen c)
        ∧ (∀ d ∈ cs, trimLen d ≤ trimLen c))
    ∧ largestTextContainer { text := "", headings := [], anchors := [] }
        [{ text := String.mk (List.replicate 100 'a'), headings := [], anchors := [] },
         { text := String.mk (List.replicate 500 'a'), headings := [], anchors := [] }]
      = { text := String.mk (List.replicate 500 'a'), headings := [], anchors := [] }
    ∧ largestTextContainer { text := "", headings := [], anchors := [] }
        [{ text := "aa", headings := [], anchors := [] },
         { text := "bb", headings := [], anchors := [] }]
      = { text := "aa", headings := [], anchors := [] } := by
  refine ⟨?_, ?_, ?_, by decide, by decide⟩
  · intro doc h
    rw [mainElementOf, h]
  · intro body cs h0
    rcases selBest_fold_spec cs body 0 with ⟨hf, _⟩ | ⟨pre, c, post, hcs, _, hk, _, _⟩
    · rw [largestTextContainer, hf]
    · have hc : c ∈ cs := by
        rw [hcs]
        exact List.mem_append_right pre (List.mem_cons_self c post)
      have := h0 c hc
      omega
  · intro body cs hpos
    obtain ⟨c0, hc0, h0⟩ := hpos
    rcases selBest_fold_spec cs body 0 with ⟨_, hall⟩ | ⟨pre, c, post, hcs, hf, _, hpre, hall⟩
    · have := hall c0 hc0
      omega
    · exact ⟨pre, c, post, hcs, by rw [largestTextContainer, hf], hpre, hall⟩

/-- When an API key is present and the openai call fails, the caught
failure falls through to the unguarded generateText fallback, whose own
outcome becomes the outcome of extractMainContent. -/
theorem extractMainContent_fallback (ai : AIEnv) (cfg : ScraperConfig)
    (text : String) (kws : List String) (e1 : String)
    (hAvail : ai.openaiAvailable = true)
    (hOc : ai.openaiComplete
        (openaiUserPrompt (truncateForAI cfg.maxContentLength text) kws)
      = Except.error e1) :
    extractMainContent ai cfg text kws
      = ai.generateText (fallbackPrompt (truncateForAI cfg.maxContentLength text) kws) := by
  rw [extractMainContent]
  rw [hAvail, if_pos rfl, hOc]

/-- C3 counterexample: the claim says that when every summarization
stage fails the PageResult still has success = true with degraded
summary content.  In the code the generateText fallback is not guarded
by any try/catch, so when both the openai call and generateText fail the
error escapes extractMainContent and is caught only by the per-URL
handler, which produces a failed PageResult: success = false, no content
fields, and no degraded marker of any kind. -/
theorem extractMainContent_counterexample_c3 :
    scrapeWithoutBrowser { }
      { openaiAvailable := true
        openaiComplete := fun _ => Except.error "503 Service Unavailable"
        generateText := fun _ => Except.error "503 Service Unavailable" }
      { attempts := fun _ => Except.ok sampleDoc }
      "https://a.example/" ["hello"]
    = { url := "https://a.example/", success := false
        method := some "lightweight"
        error := some "503 Service Unavailable" } := by
  rfl

/-- C3 amended: failure of the primary openai stage alone never
escapes — when the generateText fallback succeeds the PageResult has
success = true and its main content is the fallback text (first
conjunct; the code has no degraded flag to set); but when both stages
fail, the error is caught at the per-URL boundary and the PageResult is
the failed shape with success = false and the fallback error recorded —
a failed result rather than an aborted job or a success with degraded
content (second conjunct). -/
theorem extractMainContent_amended_c3 :
    (∀ (ai : AIEnv) (cfg : ScraperConfig) (fetch : FetchEnv) (url : String)
        (kws : List String) (doc : Doc) (s e1 : String),
      fetchWithRetry fetch.attempts cfg.maxRetries = Except.ok doc →
      cfg.enableAIExtraction = true →
      ai.openaiAvailable = true →
      ai.openaiComplete (openaiUserPrompt
          (truncateForAI cfg.maxContentLength (lightTextContent doc)) kws)
        = Except.error e1 →
      ai.generateText (fallbackPrompt
          (truncateForAI cfg.maxContentLength (lightTextContent doc)) kws)
        = Except.ok s →
      kws.all plainKeyword = true →
      (scrapeWithoutBrowser cfg ai fetch url kws).success = true
      ∧ (scrapeWithoutBrowser cfg ai fetch url kws).mainContent = some s
      ∧ (scrapeWithoutBrowser cfg ai fetch url kws).error = none)
    ∧ (∀ (ai : AIEnv) (cfg : ScraperConfig) (fetch : FetchEnv) (url : String)
        (kws : List String) (doc : Doc) (e1 e2 : String),
      fetchWithRetry fetch.attempts cfg.maxRetries = Except.ok doc →
      cfg.enableAIExtraction = true →
      ai.openaiAvailable = true →
      ai.openaiComplete (openaiUserPrompt
          (truncateForAI cfg.maxContentLength (lightTextContent doc)) kws)
        = Except.error e1 →
      ai.generateText (fallbackPrompt
          (truncateForAI cfg.maxContentLength (lightTextContent doc)) kws)
        = Except.error e2 →
      kws.all plainKeyword = true →
      (scrapeWithoutBrowser cfg ai fetch url kws).success = false
      ∧ (scrapeWithoutBrowser cfg ai fetch url kws).error = some e2) := by
  constructor
  · intro ai cfg fetch url kws doc s e1 hF hAI hAvail hOc hGen hplain
    have hOc2 : ai.openaiComplete (openaiUserPrompt
        (truncateForAI cfg.maxContentLength (collapseWs (mainElementOf doc).text)) kws)
        = Except.error e1 := hOc
    have hGen2 : ai.generateText (fallbackPrompt
        (truncateForAI cfg.maxContentLength (collapseWs (mainElementOf doc).text)) kws)
        = Except.ok s := hGen
    have hK : buildKeywordMatches (collapseWs (mainElementOf doc).text) kws
        = Except.ok (scoreMap (collapseWs (mainElementOf doc).text) kws) := by
      rw [buildKeywordMatches, scoreMap]
      exact buildKM_eq_scoreFold _ kws [] hplain
    rw [scrapeWithoutBrowser, hF]
    dsimp only
    rw [hK]
    dsimp only
    rw [if_pos hAI, extractMainContent_fallback ai cfg _ kws e1 hAvail hOc2, hGen2]
    exact ⟨rfl, rfl, rfl⟩
  · intro ai cfg fetch url kws doc e1 e2 hF hAI hAvail hOc hGen hplain
    have hOc2 : ai.openaiComplete (openaiUserPrompt
        (truncateForAI cfg.maxContentLength (collapseWs (mainElementOf doc).text)) kws)
        = Except.error e1 := hOc
    have hGen2 : ai.generateText (fallbackPrompt
        (truncateForAI cfg.maxContentLength (collapseWs (mainElementOf doc).text)) kws)
        = Except.error e2 := hGen
    have hK : buildKeywordMatches (collapseWs (mainElementOf doc).text) kws
        = Except.ok (scoreMap (collapseWs (mainElementOf doc).text) kws) := by
      rw [buildKeywordMatches, scoreMap]
      exact buildKM_eq_scoreFold _ kws [] hplain
    rw [scrapeWithoutBrowser, hF]
    dsimp only
    rw [hK]
    dsimp only
    rw [if_pos hAI, extractMainContent_fallback ai cfg _ kws e1 hAvail hOc2, hGen2]
    exact ⟨rfl, rfl⟩

/-- Witness for C3 amended: the openai stage fails with a 503 but the
generateText fallback returns a summary, and the lightweight scrape of
the sample document succeeds with that summary as main content. -/
theorem extractMainContent_amended_c3_witness :
    (scrapeWithoutBrowser { }
        { openaiAvailable := true
          openaiComplete := fun _ => Except.error "503 Service Unavailable"
          generateText := fun _ => Except.ok "fallback summary" }
        { attempts := fun _ => Except.ok sampleDoc }
        "https://a.example/" ["hello"]).success = true
    ∧ (scrapeWithoutBrowser { }
        { openaiAvailable := true
          openaiComplete := fun _ => Except.error "503 Service Unavailable"
          generateText := fun _ => Except.ok "fallback summary" }
        { attempts := fun _ => Except.ok sampleDoc }
        "https://a.example/" ["hello"]).mainContent = some "fallback summary"
    ∧ (scrapeWithoutBrowser { }
        { openaiAvailable := true
          openaiComplete := fun _ => Except.error "503 Service Unavailable"
          generateText := fun _ => Except.ok "fallback summary" }
        { attempts := fun _ => Except.ok sampleDoc }
        "https://a.example/" ["hello"]).error = none :=
  extractMainContent_amended_c3.1
    { openaiAvailable := true
      openaiComplete := fun _ => Except.error "503 Service Unavailable"
      generateText := fun _ => Except.ok "fallback summary" }
    { } { attempts := fun _ => Except.ok sampleDoc }
    "https://a.example/" ["hello"] sampleDoc "fallback summary"
    "503 Service Unavailable" rfl rfl rfl rfl rfl (by decide)

/-- Witness for C8: a single whitespace-only container falls back to the
document body. -/
theorem largestTextContainer_c8_witness :
    largestTextContainer { text := "body text", headings := [], anchors := [] }
        [{ text := "   ", headings := [], anchors := [] }]
      = { text := "body text", headings := [], anchors := [] } :=
  largestTextContainer_c8.2.1
    { text := "body text", headings := [], anchors := [] }
    [{ text := "   ", headings := [], anchors := [] }]
    (by decide)

end AgentCy
